import Mathlib

/-!
# DeBelegger — Box 3 tax simulation: shallow embedding

A shallow embedding of the core of the DeBelegger repository:
the per-regime tax calculators (`src/js/taxSystems.js`) and the
simulation engine (`runSimulation`, the variant with monthly
contributions), together with the contribution-schedule builder
(`buildContributionsByYear` in `src/js/app.js` and `getCpiForYear`
in `src/js/marketData.js`).

Modelling conventions:
* JavaScript numbers are modelled as exact rationals `ℚ`.  The special
  values `NaN`/`±Infinity`, which only matter where the code explicitly
  probes them (`Number.isFinite`, comparisons on `Number(...)`), are
  modelled by the dedicated type `JNum` used for the
  `partnerMultiplier` configuration field.
* `Math.pow(annualFactor, 1/12)` has no exact rational value; the
  simulation is parameterised by an arbitrary function
  `pow112 : ℚ → ℚ` standing for `x ↦ Math.pow(x, 1/12)`.  Every
  theorem quantifies over `pow112`, so it holds in particular for the
  real 12th root.
* `x || d` on a number `x` in JS yields `d` exactly when `x` is falsy
  (`0` or `NaN`); on rationals this is `if x = 0 then d else x`
  (`jsOr` below).
* The JS functions are total and never throw; totality of the Lean
  definitions models the absence of errors.
-/

/-- A JavaScript number as produced by `Number(x)`: either a finite
(here: rational) value, `NaN` (also the result of `Number` on a missing
field or a non-numeric value), or an infinity. -/
inductive JNum where
  | num (q : ℚ)
  | nan
  | posInf
  | negInf
deriving DecidableEq

/-- `Number.isFinite raw` from JS. -/
def JNum.isFinite : JNum → Bool
  | .num _ => true
  | _ => false

/-- The JS comparison `raw > 1` (false on `NaN`, true on `+Infinity`). -/
def JNum.gtOne : JNum → Bool
  | .num q => decide (1 < q)
  | .posInf => true
  | _ => false

/-- `taxSystems.js` line 8: `getPartnerMultiplier(config)` returns 2 when
`Number(config.partnerMultiplier)` is finite and `> 1`, else 1. -/
def getPartnerMultiplier (partnerMultiplier : JNum) : ℚ :=
  if partnerMultiplier.isFinite && partnerMultiplier.gtOne then 2 else 1

/-- The JS idiom `x || d` for a number `x`: `d` when `x` is falsy (0), else `x`. -/
def jsOr (x d : ℚ) : ℚ := if x = 0 then d else x

/-- Normalized allocation shares, result of `normalizeAllocations`. -/
structure Alloc where
  savingsShare : ℚ
  investShare : ℚ
  debtShare : ℚ
deriving DecidableEq

/-- `taxSystems.js` line 13: clamp each allocation weight at 0 and
normalize to sum 1; all-zero shares when the total is not positive. -/
def normalizeAllocations (allocSavings allocInvest allocDebt : ℚ) : Alloc :=
  let savings := max 0 allocSavings
  let invest := max 0 allocInvest
  let debt := max 0 allocDebt
  let total := savings + invest + debt
  if total ≤ 0 then ⟨0, 0, 0⟩
  else ⟨savings / total, invest / total, debt / total⟩

/-- `calcNoTax` — always 0. -/
def calcNoTax : ℚ := 0

/-- Config of the Old (pre-2017) system; field defaults are the
destructuring defaults of `calcOldSystem` (= `getDefaultConfigs().old`). -/
structure OldConfig where
  deemedReturn : ℚ := 4
  taxRate : ℚ := 30
  exemption : ℚ := 21139
  partnerMultiplier : JNum := .num 1
deriving DecidableEq

/-- `taxSystems.js` line 43: Old system — deemed return on wealth above
the (partner-scaled) exemption, flat rate.  `actualReturn` is accepted
but never consulted, as in the source. -/
def calcOldSystem (portfolioValue actualReturn : ℚ) (config : OldConfig) : ℚ :=
  let partnerMultiplier := getPartnerMultiplier config.partnerMultiplier
  let effectiveExemption := config.exemption * partnerMultiplier
  let taxableWealth := max 0 (portfolioValue - effectiveExemption)
  let deemedIncome := taxableWealth * (config.deemedReturn / 100)
  let tax := deemedIncome * (config.taxRate / 100)
  max 0 tax

/-- Config of the Current system (overbruggingswet); field defaults are
the destructuring defaults of `calcCurrentSystem`. -/
structure CurrentConfig where
  taxRate : ℚ := 36
  exemption : ℚ := 59357
  debtThreshold : ℚ := 3800
  savingsRate : ℚ := 128 / 100
  investRate : ℚ := 6
  debtRate : ℚ := 270 / 100
  allocSavings : ℚ := 0
  allocInvest : ℚ := 100
  allocDebt : ℚ := 0
  partnerMultiplier : JNum := .num 1
deriving DecidableEq

/-- `taxSystems.js` line 205: Current system — category-weighted deemed
return with debt deduction and a proportional exemption. -/
def calcCurrentSystem (portfolioValue actualReturn : ℚ) (config : CurrentConfig) : ℚ :=
  let totalWealth := max 0 portfolioValue
  if totalWealth ≤ 0 then 0 else
  let partnerMultiplier := getPartnerMultiplier config.partnerMultiplier
  let effectiveExemption := config.exemption * partnerMultiplier
  let effectiveDebtThreshold := config.debtThreshold * partnerMultiplier
  let a := normalizeAllocations config.allocSavings config.allocInvest config.allocDebt
  if a.savingsShare = 0 ∧ a.investShare = 0 ∧ a.debtShare = 0 then 0 else
  let savingsPortion := totalWealth * a.savingsShare
  let investPortion := totalWealth * a.investShare
  let debtPortion := totalWealth * a.debtShare
  let deductibleDebt := max 0 (debtPortion - effectiveDebtThreshold)
  let belastbaarRendement :=
    savingsPortion * (config.savingsRate / 100) +
    investPortion * (config.investRate / 100) -
    deductibleDebt * (config.debtRate / 100)
  if belastbaarRendement ≤ 0 then 0 else
  let rendementsgrondslag := savingsPortion + investPortion - deductibleDebt
  if rendementsgrondslag ≤ 0 then 0 else
  let grondslagSparenBeleggen := max 0 (rendementsgrondslag - effectiveExemption)
  if grondslagSparenBeleggen ≤ 0 then 0 else
  let aandeelInRendementsgrondslag := min 1 (grondslagSparenBeleggen / rendementsgrondslag)
  let voordeelUitSparenBeleggen := belastbaarRendement * aandeelInRendementsgrondslag
  let tax := voordeelUitSparenBeleggen * (config.taxRate / 100)
  max 0 tax

/-- Config of the Future (2028+ proposal) system; field defaults are the
destructuring defaults of `calcFutureIncome` / `calcFutureSystem`
(= `getDefaultConfigs().future`). -/
structure FutureConfig where
  taxRate : ℚ := 36
  freeReturn : ℚ := 1800
  lossThreshold : ℚ := 500
  partnerMultiplier : JNum := .num 1
deriving DecidableEq

/-- `taxSystems.js` line 263: the heffingsvrij resultaat only reduces
positive outcomes; losses pass through unchanged. -/
def calcFutureIncome (actualReturn : ℚ) (config : FutureConfig) : ℚ :=
  if actualReturn ≤ 0 then actualReturn else
  let partnerMultiplier := getPartnerMultiplier config.partnerMultiplier
  let effectiveFreeReturn := config.freeReturn * partnerMultiplier
  max 0 (actualReturn - effectiveFreeReturn)

/-- `taxSystems.js` line 276: flat rate on non-negative taxable income.
`portfolioValue` is accepted but never consulted, as in the source. -/
def calcFutureSystem (portfolioValue taxableIncome : ℚ) (config : FutureConfig) : ℚ :=
  let tax := max 0 taxableIncome * (config.taxRate / 100)
  max 0 tax

/-- The regime configs handed to `runSimulation` (the `noTax` entry of
the source is an empty object never consulted, and is omitted). -/
structure Configs where
  old : OldConfig := {}
  current : CurrentConfig := {}
  future : FutureConfig := {}
deriving DecidableEq

/-- `getDefaultConfigs()` of `taxSystems.js` (restricted to the four
regimes the simulation uses). -/
def getDefaultConfigs : Configs := {}

/-! ## The simulation engine (`src/unnamed/part_001`, `runSimulation`) -/

/-- One entry of the return series: `{year, return}` with the return in
percent. -/
structure YearReturn where
  year : ℤ
  ret : ℚ
deriving DecidableEq

/-- The four regimes the simulation runs in parallel. -/
inductive System where
  | noTax
  | old
  | current
  | future
deriving DecidableEq

/-- The `contributionsByYear` argument: either a flat monthly amount
(backwards compatibility) or a map year → monthly amount; a year missing
from the map acts as 0 (`Number(undefined) || 0`). -/
inductive Contributions where
  | flat (amount : ℚ)
  | byYear (amounts : ℤ → Option ℚ)

/-- The per-year deposit, line 47: `Math.max(0, Number(...) || 0)`. -/
def depositOf : Contributions → ℤ → ℚ
  | .flat amount, _ => max 0 amount
  | .byYear amounts, year => max 0 ((amounts year).getD 0)

/-- The 12 monthly steps of lines 64-69: each month multiplies by the
monthly factor, then adds the deposit at month's end. -/
def monthlyGrowth (monthlyFactor deposit : ℚ) : ℕ → ℚ → ℚ
  | 0, value => value
  | m + 1, value => monthlyGrowth monthlyFactor deposit m (value * monthlyFactor + deposit)

/-- Lines 60-70: wealth after this year's market return — direct annual
compounding when there is no deposit, else 12 monthly steps. -/
def valueAfterReturnOf (prevValue deposit annualFactor monthlyFactor : ℚ) : ℚ :=
  if deposit ≤ 0 then prevValue * annualFactor
  else monthlyGrowth monthlyFactor deposit 12 prevValue

/-- Line 97: the simulation loop's own partner multiplier,
`Number(configs.future.partnerMultiplier) > 1 ? 2 : 1` (note: unlike
`getPartnerMultiplier` there is no finiteness check, so `+Infinity`
yields 2 here). -/
def simPartnerMultiplier : JNum → ℚ
  | .num q => if 1 < q then 2 else 1
  | .posInf => 2
  | _ => 1

/-- Lines 96-114: the Future regime's per-year tax and carry-forward
update, given the realized return, end-of-year wealth and the carried
loss; returns `(tax before the clamp, new carry-forward loss)`. -/
def futureTaxStep (returnAmount valueAfterReturn carry : ℚ) (config : FutureConfig) : ℚ × ℚ :=
  let incomeBeforeLossSetoff := calcFutureIncome returnAmount config
  let partnerMultiplier := simPartnerMultiplier config.partnerMultiplier
  let lossThreshold := jsOr config.lossThreshold 500 * partnerMultiplier
  if incomeBeforeLossSetoff < 0 then
    let recognisedLoss := |incomeBeforeLossSetoff|
    (0, if lossThreshold < recognisedLoss then carry + recognisedLoss else carry)
  else if incomeBeforeLossSetoff = 0 then
    (0, carry)
  else
    let lossUsed := min carry incomeBeforeLossSetoff
    let taxableIncome := incomeBeforeLossSetoff - lossUsed
    (calcFutureSystem valueAfterReturn taxableIncome config, carry - lossUsed)

/-- Lines 77-117: the regime dispatch; returns the tax before the clamp
of line 120 together with the (possibly updated) carry-forward loss. -/
def systemTax (sys : System) (prevValue returnAmount valueAfterReturn carry : ℚ)
    (configs : Configs) : ℚ × ℚ :=
  match sys with
  | .noTax => (calcNoTax, carry)
  | .old => (calcOldSystem prevValue returnAmount configs.old, carry)
  | .current => (calcCurrentSystem prevValue returnAmount configs.current, carry)
  | .future => futureTaxStep returnAmount valueAfterReturn carry configs.future

/-- Everything one simulated year records for one regime. -/
structure YearOutcome where
  valueAfterReturn : ℚ
  tax : ℚ
  valueAfterTax : ℚ
  newCarry : ℚ
deriving DecidableEq

instance : Inhabited YearOutcome := ⟨⟨0, 0, 0, 0⟩⟩

/-- Line 51: `annualFactor = 1 + returns[i].return / 100`. -/
def annualFactorOf (yr : YearReturn) : ℚ := 1 + yr.ret / 100

/-- Line 52: `monthlyFactor`, 0 when the annual factor is not positive,
else `Math.pow(annualFactor, 1/12)` (the abstract `pow112`). -/
def monthlyFactorOf (pow112 : ℚ → ℚ) (annualFactor : ℚ) : ℚ :=
  if annualFactor ≤ 0 then 0 else pow112 annualFactor

/-- This year's end wealth before tax, as the loop body computes it. -/
def yearValueAfterReturn (prevValue deposit : ℚ) (yr : YearReturn) (pow112 : ℚ → ℚ) : ℚ :=
  valueAfterReturnOf prevValue deposit (annualFactorOf yr) (monthlyFactorOf pow112 (annualFactorOf yr))

/-- Line 73: the realized return excluding the 12 monthly contributions. -/
def yearReturnAmount (prevValue deposit : ℚ) (yr : YearReturn) (pow112 : ℚ → ℚ) : ℚ :=
  yearValueAfterReturn prevValue deposit yr pow112 - prevValue - deposit * 12

/-- One iteration of the year loop (lines 45-131) for one regime:
growth, realized return, regime tax, the clamp
`tax = min(tax, max(0, valueAfterReturn))`, and the after-tax wealth. -/
def yearStep (sys : System) (prevValue carry : ℚ) (yr : YearReturn) (deposit : ℚ)
    (configs : Configs) (pow112 : ℚ → ℚ) : YearOutcome :=
  let valueAfterReturn := yearValueAfterReturn prevValue deposit yr pow112
  let returnAmount := yearReturnAmount prevValue deposit yr pow112
  let tc := systemTax sys prevValue returnAmount valueAfterReturn carry configs
  let tax := min tc.1 (max 0 valueAfterReturn)
  { valueAfterReturn := valueAfterReturn
    tax := tax
    valueAfterTax := valueAfterReturn - tax
    newCarry := tc.2 }

/-- The year loop for one regime: the outcome of each year in order,
threading wealth and carry-forward state. -/
def runOutcomes (sys : System) (configs : Configs) (contrib : Contributions)
    (pow112 : ℚ → ℚ) : List YearReturn → ℚ → ℚ → List YearOutcome
  | [], _value, _carry => []
  | yr :: rest, value, carry =>
    let o := yearStep sys value carry yr (depositOf contrib yr.year) configs pow112
    o :: runOutcomes sys configs contrib pow112 rest o.valueAfterTax o.newCarry

/-- Lines 127-130: each year appends `previous cumulative (or 0) + tax`. -/
def cumSums (c : ℚ) : List ℚ → List ℚ
  | [] => []
  | t :: ts => (c + t) :: cumSums (c + t) ts

/-- A chart label: a year number, or the string `'Start'` used when the
return series is empty (line 135). -/
inductive Label where
  | start
  | year (y : ℤ)
deriving DecidableEq

/-- The value returned by `runSimulation` (lines 138-145). -/
structure SimulationResult where
  labels : List Label
  taxLabels : List ℤ
  portfolioValues : System → List ℚ
  annualTax : System → List ℚ
  cumulativeTax : System → List ℚ

/-- `runSimulation(startCapital, returns, configs, contributionsByYear)`
of `src/unnamed/part_001`, parameterised by `pow112` standing for
`x ↦ Math.pow(x, 1/12)`.  Each regime's wealth series starts at the
start capital; the Future carry-forward starts at 0. -/
def runSimulation (startCapital : ℚ) (returns : List YearReturn) (configs : Configs)
    (contrib : Contributions) (pow112 : ℚ → ℚ) : SimulationResult :=
  let outcomes : System → List YearOutcome := fun sys =>
    runOutcomes sys configs contrib pow112 returns startCapital 0
  { labels :=
      match returns with
      | [] => [Label.start]
      | r :: _ => Label.year (r.year - 1) :: returns.map (fun x => Label.year x.year)
    taxLabels := returns.map (fun x => x.year)
    portfolioValues := fun sys => startCapital :: (outcomes sys).map (fun o => o.valueAfterTax)
    annualTax := fun sys => (outcomes sys).map (fun o => o.tax)
    cumulativeTax := fun sys => cumSums 0 ((outcomes sys).map (fun o => o.tax)) }

/-! ## Contribution schedule (`src/js/app.js` line 163, `src/js/marketData.js` line 206) -/

/-- `Math.round(x * 100) / 100` — JS `Math.round` rounds half toward
`+∞`, i.e. `Math.round z = ⌊z + 1/2⌋`. -/
def round2 (x : ℚ) : ℚ := (⌊x * 100 + 1 / 2⌋ : ℤ) / 100

/-- `marketData.js` line 206: `getCpiForYear(year)` is `cpiData[year] ?? 0`;
the CPI series is an external yearly table, modelled as a partial map. -/
def getCpiForYear (cpi : ℤ → Option ℚ) (year : ℤ) : ℚ := (cpi year).getD 0

/-- The loop of `buildContributionsByYear`: `n` remaining years starting
at year `y`, with `amount` the running (unrounded) monthly amount. -/
def buildContributionsAux (cpi : ℤ → Option ℚ) (startYear : ℤ) (cpiEnabled : Bool) :
    ℕ → ℤ → ℚ → List (ℤ × ℚ)
  | 0, _y, _amount => []
  | n + 1, y, amount =>
    let amount' :=
      if cpiEnabled ∧ startYear < y then amount * (1 + getCpiForYear cpi y / 100) else amount
    (y, round2 amount') :: buildContributionsAux cpi startYear cpiEnabled n (y + 1) amount'

/-- `app.js` line 163: year → monthly amount (in iteration order), first
year from the base amount, later years CPI-compounded when enabled, each
stored amount rounded to 2 decimals. -/
def buildContributionsByYear (cpi : ℤ → Option ℚ) (baseAmount : ℚ) (startYear endYear : ℤ)
    (cpiEnabled : Bool) : List (ℤ × ℚ) :=
  buildContributionsAux cpi startYear cpiEnabled (endYear + 1 - startYear).toNat startYear baseAmount

/-- The spec's reference recurrence for the (unrounded) monthly amount:
the first year is the base amount unchanged; each subsequent year
multiplies by `(1 + indexRate(year)/100)` when indexation is enabled and
stays constant otherwise. -/
def contribAmountSpec (cpi : ℤ → Option ℚ) (baseAmount : ℚ) (startYear : ℤ)
    (cpiEnabled : Bool) : ℕ → ℚ
  | 0 => baseAmount
  | k + 1 =>
    if cpiEnabled then
      contribAmountSpec cpi baseAmount startYear cpiEnabled k *
        (1 + getCpiForYear cpi (startYear + (k + 1)) / 100)
    else contribAmountSpec cpi baseAmount startYear cpiEnabled k

/-- The claim's step-by-step reference for the Current system, following
the spec text: normalize weights, split the base wealth, deduct debt
above the threshold, zero the tax when the taxable notional return or
the notional base is not positive, and otherwise apportion by
`min(1, max(0, base − exemption)/base)` and apply the rate.  (Unlike
`calcCurrentSystem` there is no final floor at 0 and no initial clamp of
the wealth.) -/
def calcCurrentSystemSpec (baseWealth : ℚ) (config : CurrentConfig) : ℚ :=
  let partnerMultiplier := getPartnerMultiplier config.partnerMultiplier
  let a := normalizeAllocations config.allocSavings config.allocInvest config.allocDebt
  if a.savingsShare = 0 ∧ a.investShare = 0 ∧ a.debtShare = 0 then 0 else
  let savingsPortion := baseWealth * a.savingsShare
  let investPortion := baseWealth * a.investShare
  let debtPortion := baseWealth * a.debtShare
  let deductibleDebt := max 0 (debtPortion - config.debtThreshold * partnerMultiplier)
  let taxableNotionalReturn :=
    savingsPortion * (config.savingsRate / 100) +
    investPortion * (config.investRate / 100) -
    deductibleDebt * (config.debtRate / 100)
  let notionalBase := savingsPortion + investPortion - deductibleDebt
  if taxableNotionalReturn ≤ 0 ∨ notionalBase ≤ 0 then 0 else
  taxableNotionalReturn *
    min 1 (max 0 (notionalBase - config.exemption * partnerMultiplier) / notionalBase) *
    (config.taxRate / 100)

/-! ## Basic facts about the calculators -/

lemma calcOldSystem_nonneg (pv ra : ℚ) (cfg : OldConfig) : 0 ≤ calcOldSystem pv ra cfg := by
  simp only [calcOldSystem]; exact le_max_left 0 _

lemma calcCurrentSystem_nonneg (pv ra : ℚ) (cfg : CurrentConfig) :
    0 ≤ calcCurrentSystem pv ra cfg := by
  simp only [calcCurrentSystem]
  split_ifs <;> first | exact le_rfl | exact le_max_left 0 _

lemma calcFutureSystem_nonneg (pv ti : ℚ) (cfg : FutureConfig) :
    0 ≤ calcFutureSystem pv ti cfg := by
  simp only [calcFutureSystem]; exact le_max_left 0 _

lemma futureTaxStep_tax_nonneg (ra va c : ℚ) (cfg : FutureConfig) :
    0 ≤ (futureTaxStep ra va c cfg).1 := by
  simp only [futureTaxStep]
  split_ifs <;>
    first
      | exact le_rfl
      | exact calcFutureSystem_nonneg va (calcFutureIncome ra cfg - min c (calcFutureIncome ra cfg)) cfg

lemma systemTax_tax_nonneg (sys : System) (pv ra va c : ℚ) (cfgs : Configs) :
    0 ≤ (systemTax sys pv ra va c cfgs).1 := by
  cases sys with
  | noTax => exact le_rfl
  | old => exact calcOldSystem_nonneg pv ra cfgs.old
  | current => exact calcCurrentSystem_nonneg pv ra cfgs.current
  | future => exact futureTaxStep_tax_nonneg ra va c cfgs.future

lemma futureTaxStep_carry_nonneg (ra va c : ℚ) (cfg : FutureConfig) (hc : 0 ≤ c) :
    0 ≤ (futureTaxStep ra va c cfg).2 := by
  simp only [futureTaxStep]
  split_ifs with h1 h2 h3
  · have := abs_nonneg (calcFutureIncome ra cfg); simp only; linarith
  · simpa using hc
  · simpa using hc
  · have : min c (calcFutureIncome ra cfg) ≤ c := min_le_left _ _
    simp only; linarith

lemma systemTax_carry_nonneg (sys : System) (pv ra va c : ℚ) (cfgs : Configs) (hc : 0 ≤ c) :
    0 ≤ (systemTax sys pv ra va c cfgs).2 := by
  cases sys with
  | noTax => exact hc
  | old => exact hc
  | current => exact hc
  | future => exact futureTaxStep_carry_nonneg _ _ _ _ hc

/-! ## Projections of `yearStep` -/

lemma yearStep_valueAfterReturn (sys : System) (pv c : ℚ) (yr : YearReturn) (d : ℚ)
    (cfgs : Configs) (pow112 : ℚ → ℚ) :
    (yearStep sys pv c yr d cfgs pow112).valueAfterReturn = yearValueAfterReturn pv d yr pow112 :=
  rfl

lemma yearStep_tax (sys : System) (pv c : ℚ) (yr : YearReturn) (d : ℚ)
    (cfgs : Configs) (pow112 : ℚ → ℚ) :
    (yearStep sys pv c yr d cfgs pow112).tax =
      min (systemTax sys pv (yearReturnAmount pv d yr pow112) (yearValueAfterReturn pv d yr pow112)
          c cfgs).1
        (max 0 (yearValueAfterReturn pv d yr pow112)) :=
  rfl

lemma yearStep_newCarry (sys : System) (pv c : ℚ) (yr : YearReturn) (d : ℚ)
    (cfgs : Configs) (pow112 : ℚ → ℚ) :
    (yearStep sys pv c yr d cfgs pow112).newCarry =
      (systemTax sys pv (yearReturnAmount pv d yr pow112) (yearValueAfterReturn pv d yr pow112)
          c cfgs).2 :=
  rfl

lemma yearStep_tax_nonneg (sys : System) (pv c : ℚ) (yr : YearReturn) (d : ℚ)
    (cfgs : Configs) (pow112 : ℚ → ℚ) : 0 ≤ (yearStep sys pv c yr d cfgs pow112).tax := by
  rw [yearStep_tax]
  exact le_min (systemTax_tax_nonneg _ _ _ _ _ _) (le_max_left 0 _)

lemma yearStep_tax_le (sys : System) (pv c : ℚ) (yr : YearReturn) (d : ℚ)
    (cfgs : Configs) (pow112 : ℚ → ℚ) :
    (yearStep sys pv c yr d cfgs pow112).tax ≤
      max 0 (yearStep sys pv c yr d cfgs pow112).valueAfterReturn := by
  rw [yearStep_tax, yearStep_valueAfterReturn]
  exact min_le_right _ _

lemma yearStep_newCarry_nonneg (sys : System) (pv c : ℚ) (yr : YearReturn) (d : ℚ)
    (cfgs : Configs) (pow112 : ℚ → ℚ) (hc : 0 ≤ c) :
    0 ≤ (yearStep sys pv c yr d cfgs pow112).newCarry := by
  rw [yearStep_newCarry]
  exact systemTax_carry_nonneg _ _ _ _ _ _ hc

/-! ## Facts about `runOutcomes` and `cumSums` -/

lemma runOutcomes_length (sys : System) (cfgs : Configs) (contrib : Contributions)
    (pow112 : ℚ → ℚ) : ∀ (l : List YearReturn) (v c : ℚ),
    (runOutcomes sys cfgs contrib pow112 l v c).length = l.length := by
  intro l
  induction l with
  | nil => intro v c; rfl
  | cons yr rest ih => intro v c; simp [runOutcomes, ih]

lemma runOutcomes_mem (sys : System) (cfgs : Configs) (contrib : Contributions)
    (pow112 : ℚ → ℚ) (P : YearOutcome → Prop)
    (hstep : ∀ v c yr, P (yearStep sys v c yr (depositOf contrib yr.year) cfgs pow112)) :
    ∀ (l : List YearReturn) (v c : ℚ), ∀ o ∈ runOutcomes sys cfgs contrib pow112 l v c, P o := by
  intro l
  induction l with
  | nil => intro v c o ho; simp [runOutcomes] at ho
  | cons yr rest ih =>
    intro v c o ho
    simp only [runOutcomes, List.mem_cons] at ho
    rcases ho with rfl | ho
    · exact hstep v c yr
    · exact ih _ _ o ho

lemma runOutcomes_carry_nonneg (sys : System) (cfgs : Configs) (contrib : Contributions)
    (pow112 : ℚ → ℚ) : ∀ (l : List YearReturn) (v c : ℚ), 0 ≤ c →
    ∀ o ∈ runOutcomes sys cfgs contrib pow112 l v c, 0 ≤ o.newCarry := by
  intro l
  induction l with
  | nil => intro v c _ o ho; simp [runOutcomes] at ho
  | cons yr rest ih =>
    intro v c hc o ho
    simp only [runOutcomes, List.mem_cons] at ho
    rcases ho with rfl | ho
    · exact yearStep_newCarry_nonneg _ _ _ _ _ _ _ hc
    · exact ih _ _ (yearStep_newCarry_nonneg _ _ _ _ _ _ _ hc) o ho

lemma getD_map_rat (f : YearOutcome → ℚ) : ∀ (l : List YearOutcome) (i : ℕ), i < l.length →
    (l.map f).getD i 0 = f (l.getD i default) := by
  intro l
  induction l with
  | nil => intro i hi; simp at hi
  | cons a t ih =>
    intro i hi
    cases i with
    | zero => simp
    | succ n =>
      simp only [List.map_cons, List.getD_cons_succ]
      exact ih n (by simpa using hi)

lemma getD_mem : ∀ (l : List YearOutcome) (i : ℕ), i < l.length → l.getD i default ∈ l := by
  intro l
  induction l with
  | nil => intro i hi; simp at hi
  | cons a t ih =>
    intro i hi
    cases i with
    | zero => simp
    | succ n => simp only [List.getD_cons_succ]; exact List.mem_cons_of_mem a (ih n (by simpa using hi))

lemma cumSums_getD : ∀ (l : List ℚ) (c : ℚ) (i : ℕ), i < l.length →
    (cumSums c l).getD i 0 =
      (if i = 0 then c else (cumSums c l).getD (i - 1) 0) + l.getD i 0 := by
  intro l
  induction l with
  | nil => intro c i hi; simp at hi
  | cons t ts ih =>
    intro c i hi
    cases i with
    | zero => simp [cumSums]
    | succ n =>
      simp only [cumSums, List.getD_cons_succ, Nat.succ_ne_zero, if_false, Nat.succ_sub_one]
      rw [ih (c + t) n (by simpa using hi)]
      cases n with
      | zero => simp
      | succ m => simp

lemma cumSums_start_le : ∀ (l : List ℚ) (c : ℚ) (k : ℕ), k < l.length → (∀ t ∈ l, 0 ≤ t) →
    c ≤ (cumSums c l).getD k 0 := by
  intro l
  induction l with
  | nil => intro c k hk _; simp at hk
  | cons t ts ih =>
    intro c k hk hl
    have ht : 0 ≤ t := hl t (List.mem_cons_self t ts)
    cases k with
    | zero => simp [cumSums]; linarith
    | succ n =>
      simp only [cumSums, List.getD_cons_succ]
      have := ih (c + t) n (by simpa using hk) (fun x hx => hl x (List.mem_cons_of_mem t hx))
      linarith

lemma cumSums_mono : ∀ (l : List ℚ) (c : ℚ) (i j : ℕ), i ≤ j → j < l.length →
    (∀ t ∈ l, 0 ≤ t) → (cumSums c l).getD i 0 ≤ (cumSums c l).getD j 0 := by
  intro l
  induction l with
  | nil => intro c i j _ hj _; simp at hj
  | cons t ts ih =>
    intro c i j hij hj hl
    cases i with
    | zero =>
      cases j with
      | zero => exact le_rfl
      | succ m =>
        simp only [cumSums, List.getD_cons_zero, List.getD_cons_succ]
        exact cumSums_start_le ts (c + t) m (by simpa using hj)
          (fun x hx => hl x (List.mem_cons_of_mem t hx))
    | succ n =>
      cases j with
      | zero => omega
      | succ m =>
        simp only [cumSums, List.getD_cons_succ]
        exact ih (c + t) n m (by omega) (by simpa using hj)
          (fun x hx => hl x (List.mem_cons_of_mem t hx))

/-! ## Claim theorems -/

/-- C4: `calcFutureIncome` returns a non-positive actual return
unchanged, and otherwise floors `actualReturn − freeReturn ×
partnerMultiplier` at 0; and the concrete run (start capital 100000, one
year at +20%, default Future config) yields `returnAmount = 20000`,
`incomeBeforeSetoff = 18200` and a Future tax of `18200 × 0.36 = 6552`. -/
theorem C4_calcFutureIncome_spec :
    (∀ (actualReturn : ℚ) (config : FutureConfig), actualReturn ≤ 0 →
      calcFutureIncome actualReturn config = actualReturn) ∧
    (∀ (actualReturn : ℚ) (config : FutureConfig), 0 < actualReturn →
      calcFutureIncome actualReturn config =
        max 0 (actualReturn - config.freeReturn * getPartnerMultiplier config.partnerMultiplier)) ∧
    (∀ pow112 : ℚ → ℚ,
      yearReturnAmount 100000 (depositOf (.flat 0) 2024) ⟨2024, 20⟩ pow112 = 20000 ∧
      calcFutureIncome 20000 getDefaultConfigs.future = 18200 ∧
      (runSimulation 100000 [⟨2024, 20⟩] getDefaultConfigs (.flat 0) pow112).annualTax .future =
        [6552] ∧
      (runSimulation 100000 [⟨2024, 20⟩] getDefaultConfigs (.flat 0) pow112).portfolioValues
          .future = [100000, 113448]) := by
  refine ⟨fun ar cfg h => by simp [calcFutureIncome, h], fun ar cfg h => ?_, fun pow112 => ?_⟩
  · simp [calcFutureIncome, not_le.mpr h]
  · refine ⟨?_, ?_, ?_, ?_⟩
    · norm_num [yearReturnAmount, yearValueAfterReturn, valueAfterReturnOf, annualFactorOf,
        monthlyFactorOf, depositOf]
    · norm_num [calcFutureIncome, getDefaultConfigs, getPartnerMultiplier, JNum.isFinite,
        JNum.gtOne]
    · norm_num [runSimulation, runOutcomes, yearStep, depositOf, valueAfterReturnOf, systemTax,
        futureTaxStep, yearValueAfterReturn, yearReturnAmount, annualFactorOf, monthlyFactorOf,
        calcFutureIncome, calcFutureSystem, getPartnerMultiplier, JNum.isFinite, JNum.gtOne,
        simPartnerMultiplier, jsOr, getDefaultConfigs]
    · norm_num [runSimulation, runOutcomes, yearStep, depositOf, valueAfterReturnOf, systemTax,
        futureTaxStep, yearValueAfterReturn, yearReturnAmount, annualFactorOf, monthlyFactorOf,
        calcFutureIncome, calcFutureSystem, getPartnerMultiplier, JNum.isFinite, JNum.gtOne,
        simPartnerMultiplier, jsOr, getDefaultConfigs]

/-- Witness for C4 at concrete inputs. -/
theorem C4_witness :
    calcFutureIncome (-5) getDefaultConfigs.future = -5 ∧
    calcFutureIncome 20000 getDefaultConfigs.future =
      max 0 (20000 - getDefaultConfigs.future.freeReturn *
        getPartnerMultiplier getDefaultConfigs.future.partnerMultiplier) ∧
    (runSimulation 100000 [⟨2024, 20⟩] getDefaultConfigs (.flat 0) (fun _ => 0)).annualTax
      .future = [6552] :=
  ⟨C4_calcFutureIncome_spec.1 (-5) getDefaultConfigs.future (by norm_num),
   C4_calcFutureIncome_spec.2.1 20000 getDefaultConfigs.future (by norm_num),
   (C4_calcFutureIncome_spec.2.2 (fun _ => 0)).2.2.1⟩

/-- C8 (amended): with an empty return series `runSimulation` still
returns a result (totality models the absence of an error); the
annual-tax and cumulative-tax series of every regime are empty, while
the wealth series is the one-element list `[startCapital]` (the year-0
entry) and the labels are `['Start']`. -/
theorem C8_empty_returns_result (startCapital : ℚ) (configs : Configs)
    (contrib : Contributions) (pow112 : ℚ → ℚ) (sys : System) :
    (runSimulation startCapital [] configs contrib pow112).annualTax sys = [] ∧
    (runSimulation startCapital [] configs contrib pow112).cumulativeTax sys = [] ∧
    (runSimulation startCapital [] configs contrib pow112).portfolioValues sys = [startCapital] ∧
    (runSimulation startCapital [] configs contrib pow112).labels = [Label.start] ∧
    (runSimulation startCapital [] configs contrib pow112).taxLabels = [] :=
  ⟨rfl, rfl, rfl, rfl, rfl⟩

/-- Counterexample to C8 as stated: with an empty return series the
wealth series is not empty — it still contains the start capital. -/
theorem C8_counterexample :
    (runSimulation 100000 [] getDefaultConfigs (.flat 0) (fun _ => 1)).portfolioValues
      .future ≠ [] := by
  simp [runSimulation]

/-- C9: in every run started with carry-forward 0 (as `runSimulation`
does), the Future regime's carry-forward loss is non-negative after
every year step. -/
theorem C9_carry_forward_nonneg (startCapital : ℚ) (returns : List YearReturn)
    (configs : Configs) (contrib : Contributions) (pow112 : ℚ → ℚ) (i : ℕ)
    (hi : i < returns.length) :
    0 ≤ ((runOutcomes .future configs contrib pow112 returns startCapital 0).getD
      i default).newCarry := by
  have hlen : i < (runOutcomes .future configs contrib pow112 returns startCapital 0).length := by
    rw [runOutcomes_length]; exact hi
  exact runOutcomes_carry_nonneg .future configs contrib pow112 returns startCapital 0 le_rfl _
    (getD_mem _ i hlen)

/-- Witness for C9 at a concrete one-year run. -/
theorem C9_witness :
    0 ≤ ((runOutcomes .future getDefaultConfigs (.flat 0) (fun _ => 0) [⟨2024, 20⟩]
      100000 0).getD 0 default).newCarry :=
  C9_carry_forward_nonneg 100000 [⟨2024, 20⟩] getDefaultConfigs (.flat 0) (fun _ => 0) 0
    (by norm_num)

/-- C2: in a Future-regime year whose income before set-off is negative,
the recorded tax is 0 and the absolute income is added to the carried
loss exactly when it strictly exceeds the configured loss threshold
scaled by the loop's partner multiplier (a loss equal to the scaled
threshold is not banked).  Every simulated year of `runSimulation` is an
application of `yearStep` with the then-current wealth and carry.  The
hypothesis `lossThreshold ≠ 0` excludes the code's defensive fallback
`Number(lossThreshold) || 500`, which replaces a configured 0 by 500. -/
theorem C2_future_loss_banking (prevValue carry deposit : ℚ) (yr : YearReturn)
    (configs : Configs) (pow112 : ℚ → ℚ)
    (hthr : configs.future.lossThreshold ≠ 0)
    (hneg : calcFutureIncome (yearReturnAmount prevValue deposit yr pow112) configs.future < 0) :
    (yearStep .future prevValue carry yr deposit configs pow112).tax = 0 ∧
    (yearStep .future prevValue carry yr deposit configs pow112).newCarry =
      (if configs.future.lossThreshold * simPartnerMultiplier configs.future.partnerMultiplier <
          |calcFutureIncome (yearReturnAmount prevValue deposit yr pow112) configs.future| then
        carry + |calcFutureIncome (yearReturnAmount prevValue deposit yr pow112) configs.future|
      else carry) := by
  constructor
  · rw [yearStep_tax]
    have h1 : (systemTax .future prevValue (yearReturnAmount prevValue deposit yr pow112)
        (yearValueAfterReturn prevValue deposit yr pow112) carry configs).1 = 0 := by
      simp only [systemTax, futureTaxStep, if_pos hneg]
    rw [h1]
    exact min_eq_left (le_max_left 0 _)
  · rw [yearStep_newCarry]
    simp only [systemTax, futureTaxStep, if_pos hneg, jsOr, if_neg hthr]

/-- Witness for C2: a −10% year on 100000 with default Future config
(loss threshold 500): the 10000 loss exceeds 500 and is banked; tax 0. -/
theorem C2_witness :
    (yearStep .future 100000 0 ⟨2024, -10⟩ 0 getDefaultConfigs (fun _ => 0)).tax = 0 ∧
    (yearStep .future 100000 0 ⟨2024, -10⟩ 0 getDefaultConfigs (fun _ => 0)).newCarry =
      (if getDefaultConfigs.future.lossThreshold *
          simPartnerMultiplier getDefaultConfigs.future.partnerMultiplier <
          |calcFutureIncome (yearReturnAmount 100000 0 ⟨2024, -10⟩ (fun _ => 0))
            getDefaultConfigs.future| then
        0 + |calcFutureIncome (yearReturnAmount 100000 0 ⟨2024, -10⟩ (fun _ => 0))
          getDefaultConfigs.future|
      else 0) :=
  C2_future_loss_banking 100000 0 0 ⟨2024, -10⟩ getDefaultConfigs (fun _ => 0)
    (by norm_num [getDefaultConfigs])
    (by norm_num [calcFutureIncome, yearReturnAmount, yearValueAfterReturn, valueAfterReturnOf,
      annualFactorOf, monthlyFactorOf, getDefaultConfigs])

/-- C3: in a Future-regime year with positive income before set-off, the
carried loss drops by `lossUsed = min(carry, income)` and the pre-clamp
tax is `calcFutureSystem` of the remainder, i.e. (for a non-negative
configured rate) `(income − lossUsed) × taxRate/100`; in a year with
income exactly 0 the recorded tax is 0 and the carry is unchanged. -/
theorem C3_future_gain_setoff (prevValue carry deposit : ℚ) (yr : YearReturn)
    (configs : Configs) (pow112 : ℚ → ℚ) :
    (0 < calcFutureIncome (yearReturnAmount prevValue deposit yr pow112) configs.future →
      (yearStep .future prevValue carry yr deposit configs pow112).newCarry =
        carry - min carry (calcFutureIncome (yearReturnAmount prevValue deposit yr pow112)
          configs.future) ∧
      (futureTaxStep (yearReturnAmount prevValue deposit yr pow112)
          (yearValueAfterReturn prevValue deposit yr pow112) carry configs.future).1 =
        calcFutureSystem (yearValueAfterReturn prevValue deposit yr pow112)
          (calcFutureIncome (yearReturnAmount prevValue deposit yr pow112) configs.future -
            min carry (calcFutureIncome (yearReturnAmount prevValue deposit yr pow112)
              configs.future))
          configs.future ∧
      (0 ≤ configs.future.taxRate →
        (futureTaxStep (yearReturnAmount prevValue deposit yr pow112)
            (yearValueAfterReturn prevValue deposit yr pow112) carry configs.future).1 =
          (calcFutureIncome (yearReturnAmount prevValue deposit yr pow112) configs.future -
            min carry (calcFutureIncome (yearReturnAmount prevValue deposit yr pow112)
              configs.future)) * (configs.future.taxRate / 100))) ∧
    (calcFutureIncome (yearReturnAmount prevValue deposit yr pow112) configs.future = 0 →
      (yearStep .future prevValue carry yr deposit configs pow112).tax = 0 ∧
      (yearStep .future prevValue carry yr deposit configs pow112).newCarry = carry) := by
  set income := calcFutureIncome (yearReturnAmount prevValue deposit yr pow112) configs.future
    with hinc
  constructor
  · intro hpos
    have hne : ¬income < 0 := not_lt.mpr hpos.le
    have hne0 : ¬income = 0 := ne_of_gt hpos
    refine ⟨?_, ?_, ?_⟩
    · rw [yearStep_newCarry]
      simp only [systemTax, futureTaxStep, ← hinc, if_neg hne, if_neg hne0]
    · simp only [futureTaxStep, ← hinc, if_neg hne, if_neg hne0]
    · intro hrate
      simp only [futureTaxStep, ← hinc, if_neg hne, if_neg hne0, calcFutureSystem]
      have hrem : 0 ≤ income - min carry income := by
        have := min_le_right carry income; linarith
      rw [max_eq_right hrem, max_eq_right (by positivity)]
  · intro h0
    have hne : ¬income < 0 := by rw [h0]; exact lt_irrefl 0
    constructor
    · rw [yearStep_tax]
      have h1 : (systemTax .future prevValue (yearReturnAmount prevValue deposit yr pow112)
          (yearValueAfterReturn prevValue deposit yr pow112) carry configs).1 = 0 := by
        simp only [systemTax, futureTaxStep, ← hinc, if_neg hne, if_pos h0]
      rw [h1]
      exact min_eq_left (le_max_left 0 _)
    · rw [yearStep_newCarry]
      simp only [systemTax, futureTaxStep, ← hinc, if_neg hne, if_pos h0]

/-- Witness for C3: a +20% year on 100000 with carry 5000 and default
Future config: income 18200, loss used 5000, tax (18200−5000)×0.36. -/
theorem C3_witness :
    (yearStep .future 100000 5000 ⟨2024, 20⟩ 0 getDefaultConfigs (fun _ => 0)).newCarry =
      5000 - min 5000 (calcFutureIncome (yearReturnAmount 100000 0 ⟨2024, 20⟩ (fun _ => 0))
        getDefaultConfigs.future) ∧
    (futureTaxStep (yearReturnAmount 100000 0 ⟨2024, 20⟩ (fun _ => 0))
        (yearValueAfterReturn 100000 0 ⟨2024, 20⟩ (fun _ => 0)) 5000 getDefaultConfigs.future).1 =
      (calcFutureIncome (yearReturnAmount 100000 0 ⟨2024, 20⟩ (fun _ => 0))
          getDefaultConfigs.future -
        min 5000 (calcFutureIncome (yearReturnAmount 100000 0 ⟨2024, 20⟩ (fun _ => 0))
          getDefaultConfigs.future)) * (getDefaultConfigs.future.taxRate / 100) := by
  have h := C3_future_gain_setoff 100000 5000 0 ⟨2024, 20⟩ getDefaultConfigs (fun _ => 0)
  have hpos : 0 < calcFutureIncome (yearReturnAmount 100000 0 ⟨2024, 20⟩ (fun _ => 0))
      getDefaultConfigs.future := by
    norm_num [calcFutureIncome, yearReturnAmount, yearValueAfterReturn, valueAfterReturnOf,
      annualFactorOf, monthlyFactorOf, getDefaultConfigs, getPartnerMultiplier, JNum.isFinite,
      JNum.gtOne]
  exact ⟨(h.1 hpos).1, (h.1 hpos).2.2 (by norm_num [getDefaultConfigs])⟩

/-- C6: the Old and Current regimes' per-year tax is a function of the
start-of-year wealth `prevValue` alone (given the config) — changing the
realized return, the end-of-year wealth or the carry does not change it
— and the Old regime's pre-clamp tax equals
`max(0, prevValue − exemption × partnerMultiplier) × deemedReturn/100 ×
taxRate/100` (for non-negative configured rates). -/
theorem C6_peildatum_tax_base (prevValue carry deposit : ℚ) (yr : YearReturn)
    (configs : Configs) (pow112 : ℚ → ℚ) :
    (∀ ra va c ra' va' c',
      (systemTax .old prevValue ra va c configs).1 =
        (systemTax .old prevValue ra' va' c' configs).1) ∧
    (∀ ra va c ra' va' c',
      (systemTax .current prevValue ra va c configs).1 =
        (systemTax .current prevValue ra' va' c' configs).1) ∧
    (systemTax .old prevValue (yearReturnAmount prevValue deposit yr pow112)
        (yearValueAfterReturn prevValue deposit yr pow112) carry configs).1 =
      calcOldSystem prevValue (yearReturnAmount prevValue deposit yr pow112) configs.old ∧
    (systemTax .current prevValue (yearReturnAmount prevValue deposit yr pow112)
        (yearValueAfterReturn prevValue deposit yr pow112) carry configs).1 =
      calcCurrentSystem prevValue (yearReturnAmount prevValue deposit yr pow112)
        configs.current ∧
    (0 ≤ configs.old.deemedReturn → 0 ≤ configs.old.taxRate →
      (systemTax .old prevValue (yearReturnAmount prevValue deposit yr pow112)
          (yearValueAfterReturn prevValue deposit yr pow112) carry configs).1 =
        max 0 (prevValue -
            configs.old.exemption * getPartnerMultiplier configs.old.partnerMultiplier) *
          (configs.old.deemedReturn / 100) * (configs.old.taxRate / 100)) := by
  refine ⟨fun ra va c ra' va' c' => rfl, fun ra va c ra' va' c' => rfl, rfl, rfl, ?_⟩
  intro hdr htr
  simp only [systemTax, calcOldSystem]
  exact max_eq_right (mul_nonneg (mul_nonneg (le_max_left 0 _)
    (div_nonneg hdr (by norm_num))) (div_nonneg htr (by norm_num)))

/-- Witness for C6 at concrete inputs with the default Old config. -/
theorem C6_witness :
    (systemTax .old 121139 (yearReturnAmount 121139 0 ⟨2024, 20⟩ (fun _ => 0))
        (yearValueAfterReturn 121139 0 ⟨2024, 20⟩ (fun _ => 0)) 0 getDefaultConfigs).1 =
      max 0 (121139 -
          getDefaultConfigs.old.exemption *
            getPartnerMultiplier getDefaultConfigs.old.partnerMultiplier) *
        (getDefaultConfigs.old.deemedReturn / 100) * (getDefaultConfigs.old.taxRate / 100) :=
  (C6_peildatum_tax_base 121139 0 0 ⟨2024, 20⟩ getDefaultConfigs (fun _ => 0)).2.2.2.2
    (by norm_num [getDefaultConfigs]) (by norm_num [getDefaultConfigs])

/-- C10: the effective partner multiplier of the tax calculators is 2
exactly when the raw `partnerMultiplier` is a finite number strictly
greater than 1, and 1 for every other value (`NaN` — which is also what
a missing or non-numeric field coerces to — infinities, and finite
values ≤ 1); `calcOldSystem`, `calcCurrentSystem` and `calcFutureIncome`
depend on the field only through this multiplier, so 1.5 behaves exactly
as 2, and 0 or −5 behave exactly as 1. -/
theorem C10_partner_multiplier :
    (∀ pm : JNum,
      (getPartnerMultiplier pm = 2 ↔ ∃ q : ℚ, pm = .num q ∧ 1 < q) ∧
      (getPartnerMultiplier pm = 2 ∨ getPartnerMultiplier pm = 1)) ∧
    (∀ (pv ra : ℚ) (cfg : OldConfig) (pm' : JNum),
      getPartnerMultiplier cfg.partnerMultiplier = getPartnerMultiplier pm' →
      calcOldSystem pv ra cfg = calcOldSystem pv ra { cfg with partnerMultiplier := pm' }) ∧
    (∀ (pv ra : ℚ) (cfg : CurrentConfig) (pm' : JNum),
      getPartnerMultiplier cfg.partnerMultiplier = getPartnerMultiplier pm' →
      calcCurrentSystem pv ra cfg = calcCurrentSystem pv ra { cfg with partnerMultiplier := pm' }) ∧
    (∀ (ar : ℚ) (cfg : FutureConfig) (pm' : JNum),
      getPartnerMultiplier cfg.partnerMultiplier = getPartnerMultiplier pm' →
      calcFutureIncome ar cfg = calcFutureIncome ar { cfg with partnerMultiplier := pm' }) ∧
    getPartnerMultiplier (.num (3 / 2)) = getPartnerMultiplier (.num 2) ∧
    getPartnerMultiplier (.num 0) = 1 ∧ getPartnerMultiplier (.num (-5)) = 1 ∧
    getPartnerMultiplier .nan = 1 ∧ getPartnerMultiplier .posInf = 1 ∧
    getPartnerMultiplier .negInf = 1 := by
  refine ⟨?_, ?_, ?_, ?_, by norm_num [getPartnerMultiplier, JNum.isFinite, JNum.gtOne],
    by norm_num [getPartnerMultiplier, JNum.isFinite, JNum.gtOne],
    by norm_num [getPartnerMultiplier, JNum.isFinite, JNum.gtOne],
    by norm_num [getPartnerMultiplier, JNum.isFinite, JNum.gtOne],
    by norm_num [getPartnerMultiplier, JNum.isFinite, JNum.gtOne],
    by norm_num [getPartnerMultiplier, JNum.isFinite, JNum.gtOne]⟩
  · intro pm
    constructor
    · constructor
      · intro h
        cases pm with
        | num q =>
          refine ⟨q, rfl, ?_⟩
          by_contra hq
          simp [getPartnerMultiplier, JNum.isFinite, JNum.gtOne, hq] at h
        | nan => simp [getPartnerMultiplier, JNum.isFinite, JNum.gtOne] at h
        | posInf => simp [getPartnerMultiplier, JNum.isFinite, JNum.gtOne] at h
        | negInf => simp [getPartnerMultiplier, JNum.isFinite, JNum.gtOne] at h
      · rintro ⟨q, rfl, hq⟩
        simp [getPartnerMultiplier, JNum.isFinite, JNum.gtOne, hq]
    · simp only [getPartnerMultiplier]
      split_ifs <;> simp
  · intro pv ra cfg pm' h
    simp only [calcOldSystem]
    rw [h]
  · intro pv ra cfg pm' h
    simp only [calcCurrentSystem]
    rw [h]
  · intro ar cfg pm' h
    simp only [calcFutureIncome]
    rw [h]

/-- Witness for C10: partner multiplier 1.5 gives the same Old-system
tax as 2 on a concrete input. -/
theorem C10_witness :
    calcOldSystem 121139 0 { partnerMultiplier := JNum.num (3 / 2) } =
      calcOldSystem 121139 0
        { ({ partnerMultiplier := JNum.num (3 / 2) } : OldConfig) with
          partnerMultiplier := JNum.num 2 } :=
  C10_partner_multiplier.2.1 121139 0 { partnerMultiplier := JNum.num (3 / 2) } (JNum.num 2)
    (by norm_num [getPartnerMultiplier, JNum.isFinite, JNum.gtOne])

lemma runSimulation_annualTax (sc : ℚ) (returns : List YearReturn) (cfgs : Configs)
    (contrib : Contributions) (pow112 : ℚ → ℚ) (sys : System) :
    (runSimulation sc returns cfgs contrib pow112).annualTax sys =
      (runOutcomes sys cfgs contrib pow112 returns sc 0).map (fun o => o.tax) :=
  rfl

lemma runSimulation_cumulativeTax (sc : ℚ) (returns : List YearReturn) (cfgs : Configs)
    (contrib : Contributions) (pow112 : ℚ → ℚ) (sys : System) :
    (runSimulation sc returns cfgs contrib pow112).cumulativeTax sys =
      cumSums 0 ((runOutcomes sys cfgs contrib pow112 returns sc 0).map (fun o => o.tax)) :=
  rfl

/-- C1: in every run of `runSimulation`, for every regime and year
index, the recorded annual tax lies between 0 and
`max(0, wealthAfterReturn)` of that year, the cumulative tax satisfies
`cumulativeTax[i] = cumulativeTax[i-1] + annualTax[i]` (with 0 before
the first year), and the cumulative series is non-decreasing. -/
theorem C1_annual_and_cumulative_tax_invariants (startCapital : ℚ)
    (returns : List YearReturn) (configs : Configs) (contrib : Contributions)
    (pow112 : ℚ → ℚ) (sys : System) (i : ℕ) (hi : i < returns.length) :
    0 ≤ ((runSimulation startCapital returns configs contrib pow112).annualTax sys).getD i 0 ∧
    ((runSimulation startCapital returns configs contrib pow112).annualTax sys).getD i 0 ≤
      max 0 (((runOutcomes sys configs contrib pow112 returns startCapital 0).getD
        i default).valueAfterReturn) ∧
    ((runSimulation startCapital returns configs contrib pow112).cumulativeTax sys).getD i 0 =
      (if i = 0 then 0 else
        ((runSimulation startCapital returns configs contrib pow112).cumulativeTax sys).getD
          (i - 1) 0) +
      ((runSimulation startCapital returns configs contrib pow112).annualTax sys).getD i 0 ∧
    (∀ j, i ≤ j → j < returns.length →
      ((runSimulation startCapital returns configs contrib pow112).cumulativeTax sys).getD i 0 ≤
        ((runSimulation startCapital returns configs contrib pow112).cumulativeTax sys).getD
          j 0) := by
  have hlen : (runOutcomes sys configs contrib pow112 returns startCapital 0).length =
      returns.length :=
    runOutcomes_length sys configs contrib pow112 returns startCapital 0
  have hi' : i < (runOutcomes sys configs contrib pow112 returns startCapital 0).length := by
    rw [hlen]; exact hi
  have hmem : ∀ o ∈ runOutcomes sys configs contrib pow112 returns startCapital 0,
      0 ≤ o.tax ∧ o.tax ≤ max 0 o.valueAfterReturn :=
    runOutcomes_mem sys configs contrib pow112 _
      (fun v c yr => ⟨yearStep_tax_nonneg sys v c yr (depositOf contrib yr.year) configs pow112,
        yearStep_tax_le sys v c yr (depositOf contrib yr.year) configs pow112⟩)
      returns startCapital 0
  have htnn : ∀ t ∈ (runOutcomes sys configs contrib pow112 returns startCapital 0).map
      (fun o => o.tax), 0 ≤ t := by
    intro t ht
    rcases List.mem_map.mp ht with ⟨o, ho, rfl⟩
    exact (hmem o ho).1
  obtain ⟨h1, h2⟩ := hmem _ (getD_mem _ i hi')
  rw [runSimulation_annualTax, runSimulation_cumulativeTax,
    getD_map_rat (fun o => o.tax) _ i hi']
  refine ⟨h1, h2, ?_, ?_⟩
  · have hcum := cumSums_getD
      ((runOutcomes sys configs contrib pow112 returns startCapital 0).map (fun o => o.tax)) 0 i
      (by rw [List.length_map, hlen]; exact hi)
    rw [getD_map_rat (fun o => o.tax) _ i hi'] at hcum
    exact hcum
  · intro j hij hj
    exact cumSums_mono _ 0 i j hij (by rw [List.length_map, hlen]; exact hj) htnn

/-- Witness for C1 at a concrete one-year run. -/
theorem C1_witness :
    0 ≤ ((runSimulation 100000 [⟨2024, 20⟩] getDefaultConfigs (.flat 0)
      (fun _ => 0)).annualTax .future).getD 0 0 :=
  (C1_annual_and_cumulative_tax_invariants 100000 [⟨2024, 20⟩] getDefaultConfigs (.flat 0)
    (fun _ => 0) .future 0 (by norm_num)).1

lemma normalizeAllocations_nonneg (s i d : ℚ) :
    0 ≤ (normalizeAllocations s i d).savingsShare ∧
    0 ≤ (normalizeAllocations s i d).investShare ∧
    0 ≤ (normalizeAllocations s i d).debtShare := by
  simp only [normalizeAllocations]
  split_ifs with h
  · norm_num
  · push_neg at h
    have h0 : (0 : ℚ) ≤ max 0 s + max 0 i + max 0 d :=
      add_nonneg (add_nonneg (le_max_left 0 s) (le_max_left 0 i)) (le_max_left 0 d)
    exact ⟨div_nonneg (le_max_left 0 s) h0, div_nonneg (le_max_left 0 i) h0,
      div_nonneg (le_max_left 0 d) h0⟩

/-- C5: for a non-negative configured tax rate, `calcCurrentSystem`
coincides with the spec's step-by-step reference
`calcCurrentSystemSpec` on every base wealth and config. -/
theorem C5_calcCurrentSystem_matches_spec (portfolioValue actualReturn : ℚ)
    (config : CurrentConfig) (htax : 0 ≤ config.taxRate) :
    calcCurrentSystem portfolioValue actualReturn config =
      calcCurrentSystemSpec portfolioValue config := by
  obtain ⟨hss, his, hds⟩ :=
    normalizeAllocations_nonneg config.allocSavings config.allocInvest config.allocDebt
  rcases le_or_lt portfolioValue 0 with hpv | hpv
  · have hL : calcCurrentSystem portfolioValue actualReturn config = 0 := by
      simp only [calcCurrentSystem]
      rw [if_pos (by simp [max_eq_left hpv])]
    have hR : calcCurrentSystemSpec portfolioValue config = 0 := by
      simp only [calcCurrentSystemSpec]
      by_cases hz :
        (normalizeAllocations config.allocSavings config.allocInvest
          config.allocDebt).savingsShare = 0 ∧
        (normalizeAllocations config.allocSavings config.allocInvest
          config.allocDebt).investShare = 0 ∧
        (normalizeAllocations config.allocSavings config.allocInvest
          config.allocDebt).debtShare = 0
      · rw [if_pos hz]
      · rw [if_neg hz, if_pos]
        right
        have h1 : portfolioValue *
            (normalizeAllocations config.allocSavings config.allocInvest
              config.allocDebt).savingsShare ≤ 0 := by nlinarith
        have h2 : portfolioValue *
            (normalizeAllocations config.allocSavings config.allocInvest
              config.allocDebt).investShare ≤ 0 := by nlinarith
        have h3 : (0 : ℚ) ≤ max 0 (portfolioValue *
            (normalizeAllocations config.allocSavings config.allocInvest
              config.allocDebt).debtShare -
            config.debtThreshold * getPartnerMultiplier config.partnerMultiplier) :=
          le_max_left 0 _
        linarith
    rw [hL, hR]
  · have hmax : max 0 portfolioValue = portfolioValue := max_eq_right hpv.le
    simp only [calcCurrentSystem, calcCurrentSystemSpec, hmax]
    rw [if_neg (not_le.mpr hpv)]
    by_cases hz :
      (normalizeAllocations config.allocSavings config.allocInvest
        config.allocDebt).savingsShare = 0 ∧
      (normalizeAllocations config.allocSavings config.allocInvest
        config.allocDebt).investShare = 0 ∧
      (normalizeAllocations config.allocSavings config.allocInvest
        config.allocDebt).debtShare = 0
    · rw [if_pos hz, if_pos hz]
    · rw [if_neg hz, if_neg hz]
      set A := normalizeAllocations config.allocSavings config.allocInvest config.allocDebt
        with hA
      set dd := max 0 (portfolioValue * A.debtShare -
        config.debtThreshold * getPartnerMultiplier config.partnerMultiplier) with hdd
      set br := portfolioValue * A.savingsShare * (config.savingsRate / 100) +
        portfolioValue * A.investShare * (config.investRate / 100) -
        dd * (config.debtRate / 100) with hbr
      set rg := portfolioValue * A.savingsShare + portfolioValue * A.investShare - dd with hrg
      by_cases hbr0 : br ≤ 0
      · rw [if_pos hbr0, if_pos (Or.inl hbr0)]
      · rw [if_neg hbr0]
        by_cases hrg0 : rg ≤ 0
        · rw [if_pos hrg0, if_pos (Or.inr hrg0)]
        · rw [if_neg hrg0, if_neg (not_or.mpr ⟨hbr0, hrg0⟩)]
          set ex := config.exemption * getPartnerMultiplier config.partnerMultiplier with hex
          by_cases hgsb : max 0 (rg - ex) ≤ 0
          · rw [if_pos hgsb]
            have h0 : max 0 (rg - ex) = 0 := le_antisymm hgsb (le_max_left 0 _)
            rw [h0]
            simp
          · rw [if_neg hgsb]
            have hX : 0 ≤ br * min 1 (max 0 (rg - ex) / rg) * (config.taxRate / 100) :=
              mul_nonneg
                (mul_nonneg (not_le.mp hbr0).le
                  (le_min (by norm_num)
                    (div_nonneg (le_max_left 0 _) (not_le.mp hrg0).le)))
                (div_nonneg htax (by norm_num))
            exact max_eq_right hX

/-- Witness for C5 at the default Current config and a concrete wealth. -/
theorem C5_witness :
    calcCurrentSystem 1000000 0 {} = calcCurrentSystemSpec 1000000 {} :=
  C5_calcCurrentSystem_matches_spec 1000000 0 {} (by norm_num)

lemma buildContributionsAux_spec (cpi : ℤ → Option ℚ) (s : ℤ) (e : Bool) (base : ℚ) :
    ∀ (n k : ℕ) (y : ℤ), y = s + k + 1 →
      buildContributionsAux cpi s e n y (contribAmountSpec cpi base s e k) =
        (List.range n).map (fun j : ℕ =>
          (y + (j : ℤ), round2 (contribAmountSpec cpi base s e (k + 1 + j)))) := by
  intro n
  induction n with
  | zero => intro k y _; rfl
  | succ m ih =>
    intro k y hy
    have hlt : s < y := by omega
    have hamount :
        (if e ∧ s < y then
          contribAmountSpec cpi base s e k * (1 + getCpiForYear cpi y / 100)
        else contribAmountSpec cpi base s e k) = contribAmountSpec cpi base s e (k + 1) := by
      have hyk : y = s + ((k + 1 : ℕ) : ℤ) := by push_cast; omega
      cases e with
      | false => simp [contribAmountSpec]
      | true => rw [if_pos ⟨rfl, hlt⟩, hyk]; simp [contribAmountSpec]
    simp only [buildContributionsAux, hamount]
    rw [ih (k + 1) (y + 1) (by omega)]
    rw [List.range_succ_eq_map, List.map_cons, List.map_map]
    congr 1
    · simp
    · apply List.map_congr_left
      intro j _
      simp only [Function.comp]
      have h1 : k + 1 + 1 + j = k + 1 + (j + 1) := by omega
      rw [h1]
      congr 1
      push_cast
      ring

/-- C7: `buildContributionsByYear` is exactly the map, over the years of
the range, of the 2-decimal rounding of the spec's reference amount
recurrence `contribAmountSpec`: the first year's amount is the base
amount unchanged; with indexation disabled the amount stays constant;
with indexation enabled each subsequent year multiplies the previous
amount by `(1 + indexRate(year)/100)`, a missing lookup year acting as
rate 0 (so the schedule falls back to flat); and every stored amount is
an integer multiple of 1/100 (rounded to 2 decimals). -/
theorem C7_contribution_schedule (cpi : ℤ → Option ℚ) (baseAmount : ℚ)
    (startYear endYear : ℤ) (cpiEnabled : Bool) :
    buildContributionsByYear cpi baseAmount startYear endYear cpiEnabled =
      (List.range (endYear + 1 - startYear).toNat).map (fun k : ℕ =>
        (startYear + (k : ℤ),
          round2 (contribAmountSpec cpi baseAmount startYear cpiEnabled k))) ∧
    contribAmountSpec cpi baseAmount startYear cpiEnabled 0 = baseAmount ∧
    (cpiEnabled = false →
      ∀ k, contribAmountSpec cpi baseAmount startYear cpiEnabled k = baseAmount) ∧
    (cpiEnabled = true → ∀ k : ℕ,
      contribAmountSpec cpi baseAmount startYear cpiEnabled (k + 1) =
        contribAmountSpec cpi baseAmount startYear cpiEnabled k *
          (1 + getCpiForYear cpi (startYear + ((k + 1 : ℕ) : ℤ)) / 100)) ∧
    (∀ y, cpi y = none → getCpiForYear cpi y = 0) ∧
    (∀ p ∈ buildContributionsByYear cpi baseAmount startYear endYear cpiEnabled,
      ∃ n : ℤ, p.2 = (n : ℚ) / 100) := by
  have hmain : buildContributionsByYear cpi baseAmount startYear endYear cpiEnabled =
      (List.range (endYear + 1 - startYear).toNat).map (fun k : ℕ =>
        (startYear + (k : ℤ),
          round2 (contribAmountSpec cpi baseAmount startYear cpiEnabled k))) := by
    cases hN : (endYear + 1 - startYear).toNat with
    | zero => simp [buildContributionsByYear, hN, buildContributionsAux]
    | succ m =>
      unfold buildContributionsByYear
      rw [hN]
      simp only [buildContributionsAux]
      have hc : ¬(cpiEnabled ∧ startYear < startYear) := by simp
      rw [if_neg hc]
      have h := buildContributionsAux_spec cpi startYear cpiEnabled baseAmount m 0
        (startYear + 1) (by omega)
      rw [show contribAmountSpec cpi baseAmount startYear cpiEnabled 0 = baseAmount from rfl]
        at h
      rw [h, List.range_succ_eq_map, List.map_cons, List.map_map]
      congr 1
      · simp [contribAmountSpec]
      · apply List.map_congr_left
        intro j _
        simp only [Function.comp]
        have h1 : 0 + 1 + j = j + 1 := by omega
        rw [h1]
        congr 1
        push_cast
        ring
  refine ⟨hmain, rfl, ?_, ?_, ?_, ?_⟩
  · intro he k
    subst he
    induction k with
    | zero => rfl
    | succ n ihk => simp [contribAmountSpec, ihk]
  · intro he k
    simp [contribAmountSpec, he]
  · intro y hy
    simp [getCpiForYear, hy]
  · intro p hp
    rw [hmain] at hp
    rcases List.mem_map.mp hp with ⟨k, _, rfl⟩
    exact ⟨⌊contribAmountSpec cpi baseAmount startYear cpiEnabled k * 100 + 1 / 2⌋, rfl⟩

/-- Witness for C7: with indexation disabled the reference amount stays
at the base for every year, and a missing CPI year has rate 0. -/
theorem C7_witness :
    contribAmountSpec (fun _ => none) 100 2020 false 2 = 100 ∧
    getCpiForYear (fun _ => none) 2022 = 0 :=
  ⟨(C7_contribution_schedule (fun _ => none) 100 2020 2021 false).2.2.1 rfl 2,
   (C7_contribution_schedule (fun _ => none) 100 2020 2021 true).2.2.2.2.1 2022 rfl⟩
